import Mathlib

/-!
# Task_Manager front-end scripts: logo tilt/flip controller and chat resize toggle

Shallow embedding of
* `staticfiles/js/nexus-logo.96ef559bb059.js` (namespace `NexusLogo96ef`),
* `staticfiles/js/nexus-logo.80ab12754542.js` (namespace `NexusLogo80ab`),
* `templates/includes/chatbot_fix.js` (namespace `ChatbotFix`).

Modelling conventions.
* The numbers of the tilt computation are IEEE-754 doubles, `Float`, with the operations
  of the source in the order of the source.  Nothing is proved about the value of a
  `Float` operation.  The scroll offsets, which the chat script only copies, are rationals.
* The DOM is explicit state.  A handler is a function from state to `Except JSError`
  state; an assignment through a `null` reference is the error `JSError.typeError`.
* A listener is a closure: the variables a handler captures when it is created (`inner`
  in the logo scripts, `isExpanded` in the chat script) are parameters of its function and
  are kept with the registered listener.
* A CSS string built by a template literal is kept as the structured value it denotes
  (a list of transform functions, a list of declarations).  Equal values denote equal
  strings.  A `transform` with an angle that is not finite is not valid CSS, and the style
  object ignores the assignment of an invalid value.
-/

namespace Dom

/-- Exceptions a handler can raise. -/
inductive JSError where
  | typeError
  deriving DecidableEq, Repr

/-- The number in front of `deg` in a transform function: the digit `0` written in the
reset string of the 96ef script, or a number the handler computed, as the template literal
converts it. -/
inductive Angle where
  | zero
  | number (x : Float)

/-- Whether the angle is valid CSS: a number that is not finite converts to `Infinity`,
`-Infinity` or `NaN`, which is not. -/
def Angle.valid : Angle → Bool
  | .zero => true
  | .number x => x.isFinite

/-- One function of a CSS `transform` list, its angle in degrees. -/
inductive TransformFn where
  | rotateY (deg : Angle)
  | rotateX (deg : Angle)

/-- Whether the function is valid CSS. -/
def TransformFn.valid : TransformFn → Bool
  | .rotateY deg => deg.valid
  | .rotateX deg => deg.valid

/-- The value of `style.transform`: `[]` is the empty string `''`. -/
abbrev Transform := List TransformFn

/-- Whether the style object accepts the value: each function of the list is valid. -/
def validTransform (t : Transform) : Bool :=
  t.all TransformFn.valid

/-- The string `rotateY(0deg) rotateX(0deg)`. -/
def identityRotation : Transform :=
  [TransformFn.rotateY .zero, TransformFn.rotateX .zero]

/-- The template literal `rotateY(${rotateY}deg) rotateX(${rotateX}deg)`. -/
def tiltTransform (rotateY rotateX : Float) : Transform :=
  [TransformFn.rotateY (.number rotateY), TransformFn.rotateX (.number rotateX)]

/-- Result of `getBoundingClientRect()`. -/
structure Rect where
  left : Float
  top : Float
  width : Float
  height : Float

/-- Event type names, as passed to `addEventListener`. -/
inductive EventType where
  | mouseenter
  | mouseleave
  | focus
  | blur
  | mousemove
  deriving DecidableEq, Repr

/-- An event delivered to a logo: its type, the pointer position it reports, and the
rectangle `logo.getBoundingClientRect()` returns while it is handled. -/
structure Event where
  type : EventType
  clientX : Float
  clientY : Float
  rect : Rect

/-- The element `.nexus-logo-inner`: its inline `style.transform`, and the history of the
values its transform has been set to (oldest first). -/
structure Inner where
  transform : Transform
  writes : List Transform

/-- One `.nexus-logo` element together with the console.  `inner` is the element
`logo.querySelector('.nexus-logo-inner')` finds (`none` for `null`). -/
structure Logo where
  classList : List String
  inner : Option Inner
  console : List String

/-- A registered listener: the event type it was registered for and its function. -/
abbrev Listener := EventType × (Event → Logo → Except JSError Logo)

/-- The call `classList.add(token)`: the token is appended unless already present. -/
def classListAdd (classList : List String) (token : String) : List String :=
  if token ∈ classList then classList else classList ++ [token]

/-- The call `classList.remove(token)`. -/
def classListRemove (classList : List String) (token : String) : List String :=
  classList.filter (fun c => c ≠ token)

/-- The assignment `inner.style.transform = t`.  Here `inner` is the reference the handler
captured when the listeners were attached, and `el` is the element of the logo as it is
now, which the write reaches.  The assignment raises when the reference is `null`, and the
style object ignores a value that is not valid. -/
def setTransform (inner : Option Inner) (el : Option Inner) (t : Transform) :
    Except JSError (Option Inner) :=
  match inner with
  | none => .error .typeError
  | some _ =>
    if validTransform t then
      .ok (el.map (fun el => { transform := t, writes := el.writes ++ [t] }))
    else
      .ok el

/-- The call `console.log(line)`. -/
def consoleLog (logo : Logo) (line : String) : Logo :=
  { logo with console := logo.console ++ [line] }

/-- The call `logo.addEventListener(type, f)` with a fresh function `f`, on the list of
the listeners registered so far. -/
def addEventListener (listeners : List Listener) (type : EventType)
    (f : Event → Logo → Except JSError Logo) : List Listener :=
  listeners ++ [(type, f)]

/-- Delivery of one event to a logo: every listener registered for its type runs, in order
of registration. -/
def dispatch (listeners : List Listener) (e : Event) (logo : Logo) : Except JSError Logo :=
  (listeners.filter (fun l => l.1 = e.type)).foldlM (fun logo l => l.2 e logo) logo

/-- Delivery of a sequence of events, stopping at the first exception. -/
def run (listeners : List Listener) (events : List Event) (logo : Logo) :
    Except JSError Logo :=
  events.foldlM (fun logo e => dispatch listeners e logo) logo

end Dom

open Dom

namespace NexusLogo96ef

/-- Lines 43-53: the angles `rotateY`, `rotateX` the mousemove handler computes. -/
def tiltAngles (rect : Rect) (clientX clientY : Float) : Float × Float :=
  let centerX := rect.left + rect.width / 2
  let centerY := rect.top + rect.height / 2
  let percentX := (clientX - centerX) / (rect.width / 2)
  let percentY := (clientY - centerY) / (rect.height / 2)
  let rotateY := percentX * 15
  let rotateX := percentY * -15
  (rotateY, rotateX)

/-- Lines 14-16: the `mouseenter` listener. -/
def onMouseenter (_e : Event) (logo : Logo) : Except JSError Logo :=
  .ok { logo with classList := classListAdd logo.classList "flipped" }

/-- Lines 18-24: the `mouseleave` listener, closed over `inner` (line 11). -/
def onMouseleave (inner : Option Inner) (_e : Event) (logo : Logo) : Except JSError Logo := do
  let logo := { logo with classList := classListRemove logo.classList "flipped" }
  if inner.isSome then
    let el ← setTransform inner logo.inner identityRotation
    pure { logo with inner := el }
  else
    pure logo

/-- Lines 27-29: the `focus` listener. -/
def onFocus (_e : Event) (logo : Logo) : Except JSError Logo :=
  .ok { logo with classList := classListAdd logo.classList "flipped" }

/-- Lines 31-37: the `blur` listener, closed over `inner` (line 11). -/
def onBlur (inner : Option Inner) (_e : Event) (logo : Logo) : Except JSError Logo := do
  let logo := { logo with classList := classListRemove logo.classList "flipped" }
  if inner.isSome then
    let el ← setTransform inner logo.inner identityRotation
    pure { logo with inner := el }
  else
    pure logo

/-- Lines 41-57: the `mousemove` listener, closed over `inner` (line 11). -/
def onMousemove (inner : Option Inner) (e : Event) (logo : Logo) : Except JSError Logo := do
  let rect := e.rect
  let (rotateY, rotateX) := tiltAngles rect e.clientX e.clientY
  let el ← setTransform inner logo.inner (tiltTransform rotateY rotateX)
  pure { logo with inner := el }

/-- Lines 10-59: the body of `logoElements.forEach`: the listeners registered on one logo,
`hasHover` being `window.matchMedia('(hover: hover)').matches`. -/
def attach (hasHover : Bool) (logo : Logo) : List Listener :=
  let inner := logo.inner
  let listeners := addEventListener [] .mouseenter onMouseenter
  let listeners := addEventListener listeners .mouseleave (onMouseleave inner)
  let listeners := addEventListener listeners .focus onFocus
  let listeners := addEventListener listeners .blur (onBlur inner)
  if hasHover && inner.isSome then
    addEventListener listeners .mousemove (onMousemove inner)
  else
    listeners

/-- Lines 5-60: the `DOMContentLoaded` handler: the listeners it registers on each element
of `document.querySelectorAll('.nexus-logo')`, and the lines it logs (none). -/
def init (hasHover : Bool) (logoElements : List Logo) : List (List Listener) × List String :=
  (logoElements.map (attach hasHover), [])

end NexusLogo96ef

namespace NexusLogo80ab

/-- Lines 50-60: the angles `rotateY`, `rotateX` the mousemove handler computes. -/
def tiltAngles (rect : Rect) (clientX clientY : Float) : Float × Float :=
  let centerX := rect.left + rect.width / 2
  let centerY := rect.top + rect.height / 2
  let percentX := (clientX - centerX) / (rect.width / 2)
  let percentY := (clientY - centerY) / (rect.height / 2)
  let rotateY := percentX * 15
  let rotateX := percentY * -15
  (rotateY, rotateX)

/-- Lines 17-20: the `mouseenter` listener. -/
def onMouseenter (_e : Event) (logo : Logo) : Except JSError Logo :=
  let logo := consoleLog logo "Mouse enter on logo"
  .ok { logo with classList := classListAdd logo.classList "flipped" }

/-- Lines 22-29: the `mouseleave` listener, closed over `inner` (line 14). -/
def onMouseleave (inner : Option Inner) (_e : Event) (logo : Logo) : Except JSError Logo := do
  let logo := consoleLog logo "Mouse leave on logo"
  let logo := { logo with classList := classListRemove logo.classList "flipped" }
  if inner.isSome then
    let el ← setTransform inner logo.inner []
    pure { logo with inner := el }
  else
    pure logo

/-- Lines 32-35: the `focus` listener. -/
def onFocus (_e : Event) (logo : Logo) : Except JSError Logo :=
  let logo := consoleLog logo "Focus on logo"
  .ok { logo with classList := classListAdd logo.classList "flipped" }

/-- Lines 37-44: the `blur` listener, closed over `inner` (line 14). -/
def onBlur (inner : Option Inner) (_e : Event) (logo : Logo) : Except JSError Logo := do
  let logo := consoleLog logo "Blur on logo"
  let logo := { logo with classList := classListRemove logo.classList "flipped" }
  if inner.isSome then
    let el ← setTransform inner logo.inner []
    pure { logo with inner := el }
  else
    pure logo

/-- Lines 48-64: the `mousemove` listener, closed over `inner` (line 14). -/
def onMousemove (inner : Option Inner) (e : Event) (logo : Logo) : Except JSError Logo := do
  let rect := e.rect
  let (rotateY, rotateX) := tiltAngles rect e.clientX e.clientY
  let el ← setTransform inner logo.inner (tiltTransform rotateY rotateX)
  pure { logo with inner := el }

/-- Lines 13-66: the body of `logoElements.forEach`: the listeners registered on one logo,
`hasHover` being `window.matchMedia('(hover: hover)').matches`. -/
def attach (hasHover : Bool) (logo : Logo) : List Listener :=
  let inner := logo.inner
  let listeners := addEventListener [] .mouseenter onMouseenter
  let listeners := addEventListener listeners .mouseleave (onMouseleave inner)
  let listeners := addEventListener listeners .focus onFocus
  let listeners := addEventListener listeners .blur (onBlur inner)
  if hasHover && inner.isSome then
    addEventListener listeners .mousemove (onMousemove inner)
  else
    listeners

/-- Lines 5-67: the `DOMContentLoaded` handler: the listeners it registers on each element
of `document.querySelectorAll('.nexus-logo')`, and the lines it logs. -/
def init (hasHover : Bool) (logoElements : List Logo) : List (List Listener) × List String :=
  (logoElements.map (attach hasHover),
    ["Nexus logo script loaded", "Found logo elements: " ++ toString logoElements.length])

end NexusLogo80ab

namespace ChatbotFix

/-- A value of an inline CSS declaration, as far as the script writes one. -/
inductive CssValue where
  /-- A length in pixels: `800px`. -/
  | px (n : ℕ)
  /-- A transition `property duration timing`, the duration in seconds: `height 0.3s ease`. -/
  | transition (property : String) (seconds : ℚ) (timing : String)
  deriving DecidableEq

/-- One declaration `property: value` of an inline style, `!important` or not. -/
structure Declaration where
  property : String
  value : CssValue
  important : Bool
  deriving DecidableEq

/-- The function passed to `setTimeout` (lines 54-56). -/
inductive Callback where
  | scrollToBottom
  deriving DecidableEq, Repr

/-- A pending fire-once timer: its delay in milliseconds and its callback. -/
structure Timer where
  delay : ℕ
  callback : Callback
  deriving DecidableEq, Repr

/-- A registered click listener of the script: a function `handleToggleClick` (line 29)
with the variable `isExpanded` (line 23) it is closed over.  Every run of the
`DOMContentLoaded` handler past its guard creates a new function with a new variable. -/
structure ClickListener where
  isExpanded : Bool
  deriving DecidableEq, Repr

/-- The element `#chatMessages`: `style.cssText`, `scrollTop` (the value last assigned) and
`scrollHeight`. -/
structure Container where
  cssText : List Declaration
  scrollTop : ℚ
  scrollHeight : ℚ
  deriving DecidableEq

/-- The element `#toggleChatSizeBtn`: `innerHTML`, `title`, the three inline style
properties the script sets, and the click listeners of the script registered on it, in
order of registration. -/
structure Button where
  innerHTML : String
  title : String
  cursor : String
  zIndex : String
  position : String
  clickListeners : List ClickListener
  deriving DecidableEq

/-- The page as the chat script sees it: the result of the two `getElementById` calls
(`none` for `null`), the pending timers (oldest first) and the console. -/
structure Page where
  chatMessages : Option Container
  toggleSizeBtn : Option Button
  timers : List Timer
  console : List String
  deriving DecidableEq

/-- The variable `isExpanded` of the latest run of the script on the page: the one of the
listener registered last (`false` when the script has registered none). -/
def Page.isExpanded (s : Page) : Bool :=
  match s.toggleSizeBtn with
  | none => false
  | some b =>
    match b.clickListeners.getLast? with
    | none => false
    | some l => l.isExpanded

/-- A click event: the flags `preventDefault()` and `stopPropagation()` set. -/
structure ClickEvent where
  defaultPrevented : Bool
  propagationStopped : Bool
  deriving DecidableEq, Repr

/-- Line 18. -/
def defaultHeight : ℕ := 400

/-- Line 19. -/
def expandedHeight : ℕ := 800

/-- Line 20. -/
def collapsedHeight : ℕ := 200

/-- The call `console.log(line)`. -/
def consoleLog (s : Page) (line : String) : Page :=
  { s with console := s.console ++ [line] }

/-- A write to a property of `chatMessages`: raises when the reference is `null`. -/
def updateChatMessages (s : Page) (f : Container → Container) : Except JSError Page :=
  match s.chatMessages with
  | none => .error .typeError
  | some c => .ok { s with chatMessages := some (f c) }

/-- A write to a property of `toggleSizeBtn`: raises when the reference is `null`. -/
def updateToggleSizeBtn (s : Page) (f : Button → Button) : Except JSError Page :=
  match s.toggleSizeBtn with
  | none => .error .typeError
  | some b => .ok { s with toggleSizeBtn := some (f b) }

/-- The call `removeEventListener('click', f)`.  Listeners are compared by identity: `f` is
given by its position among the registered listeners, `none` for a function that is not
registered, in which case nothing is removed. -/
def removeEventListener (listeners : List ClickListener) (f : Option ℕ) :
    List ClickListener :=
  match f with
  | none => listeners
  | some i => listeners.eraseIdx i

/-- The call `addEventListener('click', f)` with a function `f` that is not registered
yet. -/
def addEventListener (listeners : List ClickListener) (f : ClickListener) :
    List ClickListener :=
  listeners ++ [f]

/-- The call `setTimeout(callback, delay)`. -/
def setTimeout (s : Page) (callback : Callback) (delay : ℕ) : Page :=
  { s with timers := s.timers ++ [{ delay := delay, callback := callback }] }

/-- The template literal of lines 41 and 47,
`height: ${height}px !important; transition: height 0.3s ease !important;`. -/
def heightCssText (height : ℕ) : List Declaration :=
  [{ property := "height", value := .px height, important := true },
   { property := "transition", value := .transition "height" (3 / 10) "ease", important := true }]

/-- Lines 29-57: `handleToggleClick`, closed over `isExpanded`; the new value of the
variable is returned with the event and the page. -/
def handleToggleClick (isExpanded : Bool) (e : ClickEvent) (s : Page) :
    Except JSError (Bool × ClickEvent × Page) := do
  let e := { e with defaultPrevented := true }
  let e := { e with propagationStopped := true }
  let s := consoleLog s "Chatbot toggle button clicked"
  let isExpanded := !isExpanded
  let s ←
    if isExpanded then do
      let s ← updateChatMessages s (fun c => { c with cssText := heightCssText expandedHeight })
      let s ← updateToggleSizeBtn s
        (fun b => { b with innerHTML := "<i class=\"bi bi-arrows-angle-contract\"></i>" })
      let s ← updateToggleSizeBtn s (fun b => { b with title := "Collapse" })
      pure (consoleLog s ("Expanded chat window to " ++ toString expandedHeight ++ "px"))
    else do
      let s ← updateChatMessages s (fun c => { c with cssText := heightCssText collapsedHeight })
      let s ← updateToggleSizeBtn s
        (fun b => { b with innerHTML := "<i class=\"bi bi-arrows-angle-expand\"></i>" })
      let s ← updateToggleSizeBtn s (fun b => { b with title := "Expand" })
      pure (consoleLog s ("Collapsed chat window to " ++ toString collapsedHeight ++ "px"))
  let s := setTimeout s .scrollToBottom 300
  pure (isExpanded, e, s)

/-- Lines 4-68: the `DOMContentLoaded` handler.  The function passed to
`removeEventListener` at line 26 is the `handleToggleClick` of this run, which is
registered nowhere. -/
def init (s : Page) : Except JSError Page := do
  let chatMessages := s.chatMessages
  let toggleSizeBtn := s.toggleSizeBtn
  if chatMessages.isNone || toggleSizeBtn.isNone then
    pure (consoleLog s "Chatbot elements not found, skipping resize fix")
  else
    let s := consoleLog s "Applying chatbot resize fix"
    let isExpanded := false
    let s ← updateToggleSizeBtn s (fun b =>
      { b with clickListeners := removeEventListener b.clickListeners none })
    let s ← updateToggleSizeBtn s (fun b =>
      { b with clickListeners := addEventListener b.clickListeners { isExpanded := isExpanded } })
    let s ← updateToggleSizeBtn s (fun b => { b with cursor := "pointer" })
    let s ← updateToggleSizeBtn s (fun b => { b with zIndex := "1000" })
    let s ← updateToggleSizeBtn s (fun b => { b with position := "relative" })
    pure (consoleLog s "Chatbot resize fix applied successfully")

/-- One registered listener handles the event: its function runs on its own variable.  The
first component of `acc` collects the listeners that have run, with the new values of
their variables; the others are the event object and the page. -/
def callListener (acc : List ClickListener × ClickEvent × Page) (l : ClickListener) :
    Except JSError (List ClickListener × ClickEvent × Page) := do
  let (isExpanded, e, s) ← handleToggleClick l.isExpanded acc.2.1 acc.2.2
  pure (acc.1 ++ [{ isExpanded := isExpanded }], e, s)

/-- A click on the toggle button: every listener registered on it runs, in order of
registration, on one event object, and the variables of the listeners keep their new
values.  Without a button there is nothing to click. -/
def click (s : Page) : Except JSError Page :=
  match s.toggleSizeBtn with
  | none => .ok s
  | some b => do
    let (listeners, _, s) ← b.clickListeners.foldlM callListener
      ([], { defaultPrevented := false, propagationStopped := false }, s)
    pure { s with
      toggleSizeBtn := s.toggleSizeBtn.map (fun b => { b with clickListeners := listeners }) }

/-- The body of a timer callback. -/
def Callback.call : Callback → Page → Except JSError Page
  | .scrollToBottom, s => updateChatMessages s (fun c => { c with scrollTop := c.scrollHeight })

/-- The oldest pending timer fires: it leaves the queue (fire-once) and its callback runs.
All timers of the script have the same delay, so they fire in the order they were set. -/
def fireTimer (s : Page) : Except JSError Page :=
  match s.timers with
  | [] => .ok s
  | t :: rest => t.callback.call { s with timers := rest }

/-- What can happen to the page after initialisation. -/
inductive Step where
  | click
  | timer
  deriving DecidableEq, Repr

/-- One step. -/
def step (s : Page) : Step → Except JSError Page
  | .click => click s
  | .timer => fireTimer s

/-- A sequence of steps, stopping at the first exception. -/
def steps (l : List Step) (s : Page) : Except JSError Page :=
  l.foldlM step s

/-- The page after initialisation followed by a sequence of steps. -/
def session (l : List Step) (s : Page) : Except JSError Page :=
  init s >>= steps l

end ChatbotFix

namespace Examples

/-- An inner element left tilted by an earlier mousemove. -/
def tiltedInner : Inner :=
  { transform := tiltTransform 15 (-15), writes := [tiltTransform 15 (-15)] }

/-- A flipped logo with a tilted inner element. -/
def tiltedLogo : Logo :=
  { classList := ["nexus-logo", "flipped"], inner := some tiltedInner, console := [] }

/-- A rectangle 100 wide and 50 high at (10, 20). -/
def rect : Rect := { left := 10, top := 20, width := 100, height := 50 }

/-- An event of the given type with the pointer at (35, 70). -/
def event (type : EventType) : Event :=
  { type := type, clientX := 35, clientY := 70, rect := rect }

end Examples

/-! ### Summaries of the logo listeners, used in the proofs -/

namespace LogoSummary

/-- The inner element after its transform has been set to `t`. -/
def assign (t : Transform) (el : Inner) : Inner :=
  { transform := t, writes := el.writes ++ [t] }

/-- The value a handled mousemove assigns. -/
def tilt (e : Event) : Transform :=
  tiltTransform (NexusLogo96ef.tiltAngles e.rect e.clientX e.clientY).1
    (NexusLogo96ef.tiltAngles e.rect e.clientX e.clientY).2

/-- The class list after an event. -/
def classListAfter (classList : List String) (e : Event) : List String :=
  match e.type with
  | .mouseenter => classListAdd classList "flipped"
  | .focus => classListAdd classList "flipped"
  | .mouseleave => classListRemove classList "flipped"
  | .blur => classListRemove classList "flipped"
  | .mousemove => classList

/-- The inner element after an event, `reset` being the value a leave or blur writes and
`moves` telling whether the mousemove listener is attached. -/
def innerAfter (reset : Transform) (moves : Bool) (inner : Option Inner) (e : Event) :
    Option Inner :=
  match e.type with
  | .mouseenter => inner
  | .focus => inner
  | .mouseleave => inner.map (assign reset)
  | .blur => inner.map (assign reset)
  | .mousemove => if moves && validTransform (tilt e) then inner.map (assign (tilt e)) else inner

end LogoSummary

/-! ### Summaries of the chat script, used in the proofs -/

namespace ChatSummary

open ChatbotFix

/-- The click listeners registered on the toggle button. -/
def listeners (s : Page) : List ClickListener :=
  match s.toggleSizeBtn with
  | none => []
  | some b => b.clickListeners

/-- The page after a successful initialisation. -/
def afterInit (s : Page) : Page :=
  { chatMessages := s.chatMessages
    toggleSizeBtn := s.toggleSizeBtn.map (fun b =>
      { b with
        clickListeners := b.clickListeners ++ [{ isExpanded := false }]
        cursor := "pointer"
        zIndex := "1000"
        position := "relative" })
    timers := s.timers
    console := s.console ++
      ["Applying chatbot resize fix", "Chatbot resize fix applied successfully"] }

/-- The page after the handler of the listener `l` has run, `l` holding the value of its
variable before the click. -/
def afterHandler (s : Page) (l : ClickListener) : Page :=
  { chatMessages := s.chatMessages.map (fun c =>
      { c with cssText := heightCssText (if l.isExpanded then collapsedHeight else expandedHeight) })
    toggleSizeBtn := s.toggleSizeBtn.map (fun b =>
      { b with
        innerHTML :=
          if l.isExpanded then "<i class=\"bi bi-arrows-angle-expand\"></i>"
          else "<i class=\"bi bi-arrows-angle-contract\"></i>"
        title := if l.isExpanded then "Expand" else "Collapse" })
    timers := s.timers ++ [{ delay := 300, callback := .scrollToBottom }]
    console := s.console ++
      ["Chatbot toggle button clicked",
        if l.isExpanded then "Collapsed chat window to " ++ toString collapsedHeight ++ "px"
        else "Expanded chat window to " ++ toString expandedHeight ++ "px"] }

/-- The listener after its handler has run. -/
def toggled (l : ClickListener) : ClickListener :=
  { isExpanded := !l.isExpanded }

/-- The page after a click. -/
def afterClick (s : Page) : Page :=
  { (listeners s).foldl afterHandler s with
    toggleSizeBtn := ((listeners s).foldl afterHandler s).toggleSizeBtn.map (fun b =>
      { b with clickListeners := (listeners s).map toggled }) }

/-- The page after the oldest timer has fired. -/
def afterTimer (s : Page) : Page :=
  match s.timers with
  | [] => s
  | _ :: rest =>
    { s with
      timers := rest
      chatMessages := s.chatMessages.map (fun c => { c with scrollTop := c.scrollHeight }) }

/-- The page after one step. -/
def afterStep (s : Page) : Step → Page
  | .click => afterClick s
  | .timer => afterTimer s

/-- Both elements exist and the toggle button carries a click listener of the script. -/
def Ready (s : Page) : Prop :=
  s.chatMessages.isSome = true ∧ listeners s ≠ []

/-- After a click, and after any timers that fire later, height, icon and title are those
of the current state. -/
def Settled (s : Page) : Prop :=
  ∃ c b, s.chatMessages = some c ∧ s.toggleSizeBtn = some b ∧
    ((s.isExpanded = true ∧ c.cssText = heightCssText 800 ∧
        b.innerHTML = "<i class=\"bi bi-arrows-angle-contract\"></i>" ∧ b.title = "Collapse") ∨
      (s.isExpanded = false ∧ c.cssText = heightCssText 200 ∧
        b.innerHTML = "<i class=\"bi bi-arrows-angle-expand\"></i>" ∧ b.title = "Expand"))

end ChatSummary

namespace Examples

/-- A message container 1200 pixels of content high, scrolled to the top. -/
def container : ChatbotFix.Container :=
  { cssText := [], scrollTop := 0, scrollHeight := 1200 }

/-- A toggle button as the page template renders it. -/
def button : ChatbotFix.Button :=
  { innerHTML := "<i class=\"bi bi-arrows-angle-expand\"></i>", title := "Expand",
    cursor := "", zIndex := "", position := "", clickListeners := [] }

/-- A page with the message container and the toggle button. -/
def chatPage : ChatbotFix.Page :=
  { chatMessages := some container, toggleSizeBtn := some button, timers := [], console := [] }

/-- A page with the message container but without the toggle button. -/
def pageWithoutButton : ChatbotFix.Page :=
  { chatMessages := some container, toggleSizeBtn := none, timers := [], console := [] }

end Examples

/-! ## Auxiliary facts: the logo scripts -/

namespace Dom

/-- A single registered listener runs its function. -/
theorem foldlM_singleton (f : Event → Logo → Except JSError Logo) (t : EventType) (e : Event)
    (logo : Logo) :
    List.foldlM (fun logo (l : Listener) => l.2 e logo) logo [(t, f)] = f e logo := by
  simp only [List.foldlM, bind, Except.bind, pure, Except.pure]
  cases f e logo <;> rfl

/-- The token is in the list after `classList.add`. -/
theorem mem_classListAdd (classList : List String) (token : String) :
    token ∈ classListAdd classList token := by
  unfold classListAdd
  split_ifs with h
  · exact h
  · simp

/-- The token is not in the list after `classList.remove`. -/
theorem not_mem_classListRemove (classList : List String) (token : String) :
    token ∉ classListRemove classList token := by
  simp [classListRemove]

/-- The reset string of the 96ef script is valid CSS. -/
theorem validTransform_identityRotation : validTransform identityRotation = true := rfl

/-- The empty string is accepted by the style object. -/
theorem validTransform_nil : validTransform [] = true := rfl

end Dom

namespace NexusLogo96ef

theorem dispatch_attach_96ef (hasHover : Bool) (logo₀ logo : Logo) (e : Event) :
    dispatch (attach hasHover logo₀) e logo =
      match e.type with
      | .mouseenter => onMouseenter e logo
      | .mouseleave => onMouseleave logo₀.inner e logo
      | .focus => onFocus e logo
      | .blur => onBlur logo₀.inner e logo
      | .mousemove =>
        if hasHover && logo₀.inner.isSome then onMousemove logo₀.inner e logo
        else .ok logo := by
  unfold dispatch attach addEventListener
  by_cases hc : (hasHover && logo₀.inner.isSome) = true <;>
    cases h : e.type <;>
    simp only [hc, if_true, if_false, List.nil_append, List.cons_append, List.filter,
      decide_True, decide_False, reduceCtorEq, foldlM_singleton, Bool.false_eq_true]
  rfl

theorem attach_types_96ef (hasHover : Bool) (logo : Logo) :
    (attach hasHover logo).map Prod.fst =
      [.mouseenter, .mouseleave, .focus, .blur] ++
        if hasHover && logo.inner.isSome then [.mousemove] else [] := by
  unfold attach addEventListener
  by_cases hc : (hasHover && logo.inner.isSome) = true <;>
    simp only [hc, if_true, if_false, List.nil_append, List.cons_append, List.map_cons,
      List.map_nil, Bool.false_eq_true, List.append_nil]

end NexusLogo96ef

namespace NexusLogo80ab

theorem tiltAngles_80ab_eq : tiltAngles = NexusLogo96ef.tiltAngles := rfl

theorem dispatch_attach_80ab (hasHover : Bool) (logo₀ logo : Logo) (e : Event) :
    dispatch (attach hasHover logo₀) e logo =
      match e.type with
      | .mouseenter => onMouseenter e logo
      | .mouseleave => onMouseleave logo₀.inner e logo
      | .focus => onFocus e logo
      | .blur => onBlur logo₀.inner e logo
      | .mousemove =>
        if hasHover && logo₀.inner.isSome then onMousemove logo₀.inner e logo
        else .ok logo := by
  unfold dispatch attach addEventListener
  by_cases hc : (hasHover && logo₀.inner.isSome) = true <;>
    cases h : e.type <;>
    simp only [hc, if_true, if_false, List.nil_append, List.cons_append, List.filter,
      decide_True, decide_False, reduceCtorEq, foldlM_singleton, Bool.false_eq_true]
  rfl

theorem attach_types_80ab (hasHover : Bool) (logo : Logo) :
    (attach hasHover logo).map Prod.fst =
      [.mouseenter, .mouseleave, .focus, .blur] ++
        if hasHover && logo.inner.isSome then [.mousemove] else [] := by
  unfold attach addEventListener
  by_cases hc : (hasHover && logo.inner.isSome) = true <;>
    simp only [hc, if_true, if_false, List.nil_append, List.cons_append, List.map_cons,
      List.map_nil, Bool.false_eq_true, List.append_nil]

end NexusLogo80ab

namespace LogoSummary

theorem innerAfter_isSome (reset : Transform) (moves : Bool) (inner : Option Inner) (e : Event) :
    (innerAfter reset moves inner e).isSome = inner.isSome := by
  unfold innerAfter
  cases e.type <;> cases inner <;> simp only [Option.map, Option.isSome] <;> split_ifs <;> rfl

theorem foldl_innerAfter_isSome (reset : Transform) (moves : Bool) (events : List Event)
    (inner : Option Inner) :
    (events.foldl (innerAfter reset moves) inner).isSome = inner.isSome := by
  induction events generalizing inner with
  | nil => rfl
  | cons e es ih => rw [List.foldl_cons, ih, innerAfter_isSome]

end LogoSummary

namespace NexusLogo96ef

open LogoSummary

theorem dispatch_summary_96ef (hasHover : Bool) (logo₀ logo : Logo) (e : Event)
    (hp : logo₀.inner.isSome = logo.inner.isSome) :
    dispatch (attach hasHover logo₀) e logo =
      .ok ⟨classListAfter logo.classList e,
        innerAfter identityRotation (hasHover && logo₀.inner.isSome) logo.inner e,
        logo.console⟩ := by
  rw [dispatch_attach_96ef]
  obtain ⟨cl, inner, co⟩ := logo
  obtain ⟨cl₀, inner₀, co₀⟩ := logo₀
  simp only at hp
  unfold classListAfter innerAfter
  cases h : e.type <;> cases hasHover <;> cases inner <;> cases inner₀ <;>
    simp_all [onMouseenter, onMouseleave, onFocus, onBlur, onMousemove, setTransform, assign,
      tilt, bind, Except.bind, pure, Except.pure, validTransform_identityRotation]
  all_goals split_ifs <;> rfl

theorem run_summary_96ef (hasHover : Bool) (logo₀ : Logo) (events : List Event) (logo : Logo)
    (hp : logo₀.inner.isSome = logo.inner.isSome) :
    run (attach hasHover logo₀) events logo =
      .ok ⟨events.foldl classListAfter logo.classList,
        events.foldl (innerAfter identityRotation (hasHover && logo₀.inner.isSome)) logo.inner,
        logo.console⟩ := by
  induction events generalizing logo with
  | nil => rfl
  | cons e es ih =>
    have hstep := dispatch_summary_96ef hasHover logo₀ logo e hp
    unfold run at ih ⊢
    rw [List.foldlM_cons, hstep]
    exact ih _ (by simp only [innerAfter_isSome]; exact hp)

end NexusLogo96ef

namespace NexusLogo80ab

open LogoSummary

theorem dispatch_summary_80ab (hasHover : Bool) (logo₀ logo : Logo) (e : Event)
    (hp : logo₀.inner.isSome = logo.inner.isSome) :
    ∃ console, dispatch (attach hasHover logo₀) e logo =
      .ok ⟨classListAfter logo.classList e,
        innerAfter [] (hasHover && logo₀.inner.isSome) logo.inner e, console⟩ := by
  rw [dispatch_attach_80ab]
  obtain ⟨cl, inner, co⟩ := logo
  obtain ⟨cl₀, inner₀, co₀⟩ := logo₀
  simp only at hp
  unfold classListAfter innerAfter
  cases h : e.type <;> cases hasHover <;> cases inner <;> cases inner₀ <;>
    simp_all [onMouseenter, onMouseleave, onFocus, onBlur, onMousemove, setTransform, assign,
      tilt, consoleLog, bind, Except.bind, pure, Except.pure, validTransform_nil,
      tiltAngles_80ab_eq]
  all_goals split_ifs <;> exact ⟨_, rfl⟩

theorem run_summary_80ab (hasHover : Bool) (logo₀ : Logo) (events : List Event) (logo : Logo)
    (hp : logo₀.inner.isSome = logo.inner.isSome) :
    ∃ console, run (attach hasHover logo₀) events logo =
      .ok ⟨events.foldl classListAfter logo.classList,
        events.foldl (innerAfter [] (hasHover && logo₀.inner.isSome)) logo.inner,
        console⟩ := by
  induction events generalizing logo with
  | nil => exact ⟨logo.console, rfl⟩
  | cons e es ih =>
    obtain ⟨c, hstep⟩ := dispatch_summary_80ab hasHover logo₀ logo e hp
    unfold run at ih ⊢
    rw [List.foldlM_cons, hstep]
    exact ih _ (by simp only [innerAfter_isSome]; exact hp)

end NexusLogo80ab

namespace LogoSummary

theorem foldl_innerAfter_writes (reset : Transform) (events : List Event) (inner : Option Inner) :
    (events.foldl (innerAfter reset false) inner).map (fun i => i.writes) =
      inner.map (fun i => i.writes ++ List.replicate
        (events.countP (fun e => decide (e.type = .mouseleave ∨ e.type = .blur))) reset) := by
  induction events generalizing inner with
  | nil => cases inner <;> simp
  | cons e es ih =>
    rw [List.foldl_cons, ih]
    cases inner with
    | none => unfold innerAfter; cases e.type <;> rfl
    | some el =>
      unfold innerAfter
      cases h : e.type <;>
        simp [List.countP_cons, h, assign, List.replicate_succ]

theorem map_transform_eq_of_isSome_eq (t : Transform) (a b : Option Inner)
    (h : a.isSome = b.isSome) :
    (a.map (assign t)).map (fun i => i.transform) =
      (b.map (assign t)).map (fun i => i.transform) := by
  cases a <;> cases b <;> simp_all [assign]

/-- After any events the two reset values leave equal transforms, or the identity and the
empty string with a reset that no later mousemove has overwritten. -/
theorem foldl_innerAfter_compare (moves : Bool) (events : List Event) (inner : Option Inner) :
    (events.foldl (innerAfter identityRotation moves) inner).map (fun i => i.transform) =
        (events.foldl (innerAfter [] moves) inner).map (fun i => i.transform) ∨
      ((events.foldl (innerAfter identityRotation moves) inner).map (fun i => i.transform) =
          some identityRotation ∧
        (events.foldl (innerAfter [] moves) inner).map (fun i => i.transform) = some [] ∧
        ∃ pre r post, events = pre ++ r :: post ∧ (r.type = .mouseleave ∨ r.type = .blur) ∧
          post.all (fun e => !(moves && decide (e.type = .mousemove) &&
            validTransform (tilt e))) = true) := by
  induction events using List.reverseRecOn with
  | nil => exact Or.inl rfl
  | append_singleton es e ih =>
    have hs : (es.foldl (innerAfter identityRotation moves) inner).isSome =
        (es.foldl (innerAfter [] moves) inner).isSome := by
      rw [foldl_innerAfter_isSome, foldl_innerAfter_isSome]
    simp only [List.foldl_append, List.foldl_cons, List.foldl_nil]
    generalize es.foldl (innerAfter identityRotation moves) inner = a at ih hs ⊢
    generalize es.foldl (innerAfter [] moves) inner = b at ih hs ⊢
    have keep : (moves && decide (e.type = .mousemove) && validTransform (tilt e)) = false →
        (a.map (fun i => i.transform) = b.map (fun i => i.transform) ∨
        (a.map (fun i => i.transform) = some identityRotation ∧
          b.map (fun i => i.transform) = some [] ∧
          ∃ pre r post, es ++ [e] = pre ++ r :: post ∧
            (r.type = .mouseleave ∨ r.type = .blur) ∧
            post.all (fun e => !(moves && decide (e.type = .mousemove) &&
              validTransform (tilt e))) = true)) := by
      intro hm
      rcases ih with ih | ⟨h1, h2, pre, r, post, he, hr, hall⟩
      · exact Or.inl ih
      · refine Or.inr ⟨h1, h2, pre, r, post ++ [e], ?_, hr, ?_⟩
        · rw [he]; simp
        · rw [List.all_append, hall]
          simp only [List.all_cons, List.all_nil, hm, Bool.not_false, Bool.and_self]
    have reset : (a.map (assign identityRotation)).map (fun i => i.transform) =
          (b.map (assign [])).map (fun i => i.transform) ∨
        ((a.map (assign identityRotation)).map (fun i => i.transform) = some identityRotation ∧
          (b.map (assign [])).map (fun i => i.transform) = some [] ∧
          ∃ pre r post, es ++ [e] = pre ++ r :: post ∧ (r.type = e.type) ∧
            post.all (fun e => !(moves && decide (e.type = .mousemove) &&
              validTransform (tilt e))) = true) := by
      cases a with
      | none => cases b with
        | none => exact Or.inl rfl
        | some _ => cases hs
      | some x => cases b with
        | none => cases hs
        | some y => exact Or.inr ⟨rfl, rfl, es, e, [], by simp, rfl, rfl⟩
    unfold innerAfter
    cases h : e.type
    · exact keep (by simp [h])
    · simp only
      rcases reset with k | ⟨k1, k2, pre, r, post, he, hr, hall⟩
      · exact Or.inl k
      · exact Or.inr ⟨k1, k2, pre, r, post, he, Or.inl (hr.trans h), hall⟩
    · exact keep (by simp [h])
    · simp only
      rcases reset with k | ⟨k1, k2, pre, r, post, he, hr, hall⟩
      · exact Or.inl k
      · exact Or.inr ⟨k1, k2, pre, r, post, he, Or.inr (hr.trans h), hall⟩
    · simp only
      by_cases hv : (moves && validTransform (tilt e)) = true
      · simp only [if_pos hv]
        exact Or.inl (map_transform_eq_of_isSome_eq _ a b hs)
      · simp only [if_neg hv]
        refine keep ?_
        simp only [h, decide_True, Bool.and_true]
        simpa using hv

end LogoSummary

/-! ## Auxiliary facts: the chat script -/

namespace ChatSummary

open ChatbotFix

theorem init_eq (s : Page) (c : Container) (b : Button) (hc : s.chatMessages = some c)
    (hb : s.toggleSizeBtn = some b) : init s = .ok (afterInit s) := by
  obtain ⟨cm, tb, ti, co⟩ := s
  simp only at hc hb
  subst hc hb
  simp [init, afterInit, updateToggleSizeBtn, ChatbotFix.consoleLog, removeEventListener,
    ChatbotFix.addEventListener, bind, Except.bind, pure, Except.pure]

theorem ready_afterInit (s : Page) (c : Container) (b : Button) (hc : s.chatMessages = some c)
    (hb : s.toggleSizeBtn = some b) : Ready (afterInit s) := by
  simp [Ready, afterInit, listeners, hc, hb]

/-- The handler of one listener. -/
theorem handleToggleClick_eq (x : Bool) (e : ClickEvent) (s : Page)
    (hc : s.chatMessages.isSome = true) (hb : s.toggleSizeBtn.isSome = true) :
    handleToggleClick x e s =
      .ok (!x, { defaultPrevented := true, propagationStopped := true },
        afterHandler s { isExpanded := x }) := by
  obtain ⟨cm, tb, ti, co⟩ := s
  cases cm with
  | none => cases hc
  | some c =>
    cases tb with
    | none => cases hb
    | some b =>
      cases x <;>
        simp [handleToggleClick, afterHandler, updateChatMessages, updateToggleSizeBtn,
          ChatbotFix.consoleLog, setTimeout, bind, Except.bind, pure, Except.pure]

theorem afterHandler_isSome (s : Page) (l : ClickListener) :
    (afterHandler s l).chatMessages.isSome = s.chatMessages.isSome ∧
      (afterHandler s l).toggleSizeBtn.isSome = s.toggleSizeBtn.isSome := by
  constructor <;> simp [afterHandler]

theorem foldl_afterHandler_isSome (ls : List ClickListener) (s : Page) :
    (ls.foldl afterHandler s).chatMessages.isSome = s.chatMessages.isSome ∧
      (ls.foldl afterHandler s).toggleSizeBtn.isSome = s.toggleSizeBtn.isSome := by
  induction ls generalizing s with
  | nil => exact ⟨rfl, rfl⟩
  | cons l ls ih =>
    rw [List.foldl_cons]
    exact ⟨(ih _).1.trans (afterHandler_isSome s l).1, (ih _).2.trans (afterHandler_isSome s l).2⟩

/-- The listeners of a button handle one click in turn. -/
theorem foldlM_callListener (ls done : List ClickListener) (e : ClickEvent) (s : Page)
    (hc : s.chatMessages.isSome = true) (hb : s.toggleSizeBtn.isSome = true) :
    ∃ e', ls.foldlM callListener (done, e, s) =
      .ok (done ++ ls.map toggled, e', ls.foldl afterHandler s) := by
  induction ls generalizing done e s with
  | nil => exact ⟨e, by simp [List.foldlM, pure, Except.pure]⟩
  | cons l ls ih =>
    obtain ⟨e', he'⟩ := ih (done ++ [toggled l])
      { defaultPrevented := true, propagationStopped := true } (afterHandler s l)
      ((afterHandler_isSome s l).1.trans hc) ((afterHandler_isSome s l).2.trans hb)
    refine ⟨e', ?_⟩
    rw [List.foldlM_cons]
    simp only [callListener, handleToggleClick_eq _ _ _ hc hb, bind, Except.bind, pure,
      Except.pure]
    simpa [toggled] using he'

theorem click_eq (s : Page) (h : Ready s) : click s = .ok (afterClick s) := by
  obtain ⟨h1, h2⟩ := h
  cases hb : s.toggleSizeBtn with
  | none => simp [listeners, hb] at h2
  | some b =>
    obtain ⟨e', he'⟩ := foldlM_callListener b.clickListeners []
      { defaultPrevented := false, propagationStopped := false } s h1 (by simp [hb])
    simp only [click, hb, he', bind, Except.bind, pure, Except.pure, afterClick, listeners,
      List.nil_append]

theorem fireTimer_eq (s : Page) (h : Ready s) : fireTimer s = .ok (afterTimer s) := by
  obtain ⟨cm, tb, ti, co⟩ := s
  obtain ⟨h1, h2⟩ := h
  cases cm with
  | none => cases h1
  | some c =>
    cases ti with
    | nil => rfl
    | cons t rest =>
      obtain ⟨d, cb⟩ := t
      cases cb
      simp [fireTimer, afterTimer, Callback.call, updateChatMessages]

theorem listeners_afterClick (s : Page) (h : Ready s) :
    listeners (afterClick s) = (listeners s).map toggled := by
  obtain ⟨h1, h2⟩ := h
  have hb : s.toggleSizeBtn.isSome = true := by
    cases hb : s.toggleSizeBtn with
    | none => simp [listeners, hb] at h2
    | some b => rfl
  have hb' := (foldl_afterHandler_isSome (listeners s) s).2.trans hb
  cases hf : ((listeners s).foldl afterHandler s).toggleSizeBtn with
  | none => rw [hf] at hb'; cases hb'
  | some b' =>
    unfold afterClick
    simp only [hf, Option.map_some']
    rfl

theorem listeners_afterTimer (s : Page) : listeners (afterTimer s) = listeners s := by
  unfold afterTimer
  cases s.timers <;> rfl

theorem ready_afterStep (s : Page) (st : Step) (h : Ready s) : Ready (afterStep s st) := by
  cases st
  · refine ⟨?_, ?_⟩
    · simp only [afterStep, afterClick]
      exact (foldl_afterHandler_isSome (listeners s) s).1.trans h.1
    · simp only [afterStep]
      rw [listeners_afterClick s h]
      simpa using h.2
  · refine ⟨?_, ?_⟩
    · simp only [afterStep, afterTimer]
      cases s.timers with
      | nil => exact h.1
      | cons t rest => simpa using h.1
    · simp only [afterStep]
      rw [listeners_afterTimer]
      exact h.2

theorem step_eq (s : Page) (st : Step) (h : Ready s) : step s st = .ok (afterStep s st) := by
  cases st
  · exact click_eq s h
  · exact fireTimer_eq s h

theorem steps_eq (l : List Step) (s : Page) (h : Ready s) :
    steps l s = .ok (l.foldl afterStep s) := by
  induction l generalizing s with
  | nil => rfl
  | cons st l ih =>
    unfold steps at ih ⊢
    rw [List.foldlM_cons, step_eq s st h]
    exact ih _ (ready_afterStep s st h)

theorem session_eq (l : List Step) (s : Page) (c : Container) (b : Button)
    (hc : s.chatMessages = some c) (hb : s.toggleSizeBtn = some b) :
    session l s = .ok (l.foldl afterStep (afterInit s)) := by
  unfold session
  rw [init_eq s c b hc hb]
  exact steps_eq l _ (ready_afterInit s c b hc hb)

theorem ready_foldl (l : List Step) (s : Page) (h : Ready s) : Ready (l.foldl afterStep s) := by
  induction l generalizing s with
  | nil => exact h
  | cons st l ih => exact ih _ (ready_afterStep s st h)

/-- The variable of the latest run, read off the listeners. -/
theorem isExpanded_eq (s : Page) :
    s.isExpanded = ((listeners s).getLast?.map (fun l => l.isExpanded)).getD false := by
  unfold Page.isExpanded listeners
  cases s.toggleSizeBtn with
  | none => rfl
  | some b =>
    simp only
    cases h : b.clickListeners.getLast? <;> rfl

theorem afterStep_isExpanded (s : Page) (st : Step) (h : Ready s) :
    (afterStep s st).isExpanded = if st = .click then !s.isExpanded else s.isExpanded := by
  cases st
  · simp only [afterStep, if_true]
    rw [isExpanded_eq, isExpanded_eq, listeners_afterClick s h, List.getLast?_map]
    cases hl : (listeners s).getLast? with
    | none => exact absurd (List.getLast?_eq_none_iff.mp hl) h.2
    | some l => rfl
  · simp only [afterStep, reduceCtorEq, if_false]
    rw [isExpanded_eq, isExpanded_eq, listeners_afterTimer]

theorem foldl_isExpanded (l : List Step) (s : Page) (h : Ready s) :
    (l.foldl afterStep s).isExpanded =
      if l.count .click % 2 = 1 then !s.isExpanded else s.isExpanded := by
  induction l using List.reverseRecOn with
  | nil => rfl
  | append_singleton l st ih =>
    rw [List.foldl_append, List.foldl_cons, List.foldl_nil,
      afterStep_isExpanded _ _ (ready_foldl l s h), ih, List.count_append]
    cases st
    · simp only [if_true, List.count_singleton_self]
      rcases Nat.mod_two_eq_zero_or_one (List.count Step.click l) with h | h
      · have h' : (List.count Step.click l + 1) % 2 = 1 := by omega
        simp [h, h']
      · have h' : (List.count Step.click l + 1) % 2 = 0 := by omega
        simp [h, h']
    · simp

theorem settled_afterClick (s : Page) (h : Ready s) : Settled (afterClick s) := by
  have hready := ready_afterStep s .click h
  have hexp := afterStep_isExpanded s .click h
  simp only [afterStep, if_true] at hready hexp
  obtain ⟨h1, h2⟩ := h
  obtain ⟨ls, l, hl⟩ : ∃ ls l, listeners s = ls ++ [l] :=
    ⟨_, _, (List.dropLast_append_getLast h2).symm⟩
  have hlast : s.isExpanded = l.isExpanded := by
    rw [isExpanded_eq, hl]
    simp
  have hb : s.toggleSizeBtn.isSome = true := by
    cases hb : s.toggleSizeBtn with
    | none => simp [listeners, hb] at h2
    | some b => rfl
  have hX := foldl_afterHandler_isSome ls s
  cases hcm : (ls.foldl afterHandler s).chatMessages with
  | none => rw [hcm, h1] at hX; cases hX.1
  | some c =>
    cases htb : (ls.foldl afterHandler s).toggleSizeBtn with
    | none => rw [htb, hb] at hX; cases hX.2
    | some b =>
      unfold Settled
      rw [hexp, hlast]
      simp only [afterClick, hl, List.foldl_append, List.foldl_cons, List.foldl_nil,
        afterHandler, hcm, htb, Option.map_some']
      cases l.isExpanded <;> simp [expandedHeight, collapsedHeight]

theorem isExpanded_afterTimer (s : Page) : (afterTimer s).isExpanded = s.isExpanded := by
  rw [isExpanded_eq, isExpanded_eq, listeners_afterTimer]

theorem settled_afterTimer (s : Page) (h : Settled s) : Settled (afterTimer s) := by
  obtain ⟨c, b, hc, hb, hd⟩ := h
  have he := isExpanded_afterTimer s
  unfold Settled
  rw [he]
  unfold afterTimer
  cases ht : s.timers with
  | nil => exact ⟨c, b, hc, hb, hd⟩
  | cons t rest => exact ⟨{ c with scrollTop := c.scrollHeight }, b, by simp [hc], hb, hd⟩

theorem settled_foldl (l : List Step) (s : Page) (h : Ready s) (hn : 0 < l.count .click) :
    Settled (l.foldl afterStep s) := by
  induction l using List.reverseRecOn with
  | nil => simp at hn
  | append_singleton l st ih =>
    rw [List.foldl_append, List.foldl_cons, List.foldl_nil]
    cases st
    · exact settled_afterClick _ (ready_foldl l s h)
    · refine settled_afterTimer _ (ih ?_)
      simpa [List.count_append] using hn

end ChatSummary

/-! ## The claims: logo tilt/flip controller -/

/-- C2, refuted for the 80ab script: at a tilted logo, its mouseleave handler leaves the
inner transform empty, which is not `rotateY(0deg) rotateX(0deg)`. -/
theorem c2_counterexample :
    ∃ logo', dispatch (NexusLogo80ab.attach true Examples.tiltedLogo)
        (Examples.event .mouseleave) Examples.tiltedLogo = .ok logo' ∧
      logo'.inner.map (fun i => i.transform) = some [] ∧
      logo'.inner.map (fun i => i.transform) ≠ some identityRotation := by
  rw [NexusLogo80ab.dispatch_attach_80ab]
  simp [NexusLogo80ab.onMouseleave, Examples.event, Examples.tiltedLogo, setTransform,
    consoleLog, bind, Except.bind, pure, Except.pure, identityRotation, validTransform_nil]

/-- C2, amended: for a logo that had an inner element when the listeners were attached and
every prior value of its transform, handling mouseleave or blur sets the inner transform
to `rotateY(0deg) rotateX(0deg)` in the 96ef script and to the empty string in the 80ab
script.  Here `logo₀` is the logo as it was when the listeners were attached and `logo` is
its state when the event arrives. -/
theorem c2_leave_blur_resets_transform (hasHover : Bool) (logo₀ logo : Logo) (el : Inner)
    (clientX clientY : Float) (rect : Rect) (h₀ : logo₀.inner.isSome = true)
    (hin : logo.inner = some el) :
    (∃ logo', dispatch (NexusLogo96ef.attach hasHover logo₀)
        ⟨.mouseleave, clientX, clientY, rect⟩ logo = .ok logo' ∧
      logo'.inner.map (fun i => i.transform) = some identityRotation) ∧
    (∃ logo', dispatch (NexusLogo96ef.attach hasHover logo₀)
        ⟨.blur, clientX, clientY, rect⟩ logo = .ok logo' ∧
      logo'.inner.map (fun i => i.transform) = some identityRotation) ∧
    (∃ logo', dispatch (NexusLogo80ab.attach hasHover logo₀)
        ⟨.mouseleave, clientX, clientY, rect⟩ logo = .ok logo' ∧
      logo'.inner.map (fun i => i.transform) = some []) ∧
    (∃ logo', dispatch (NexusLogo80ab.attach hasHover logo₀)
        ⟨.blur, clientX, clientY, rect⟩ logo = .ok logo' ∧
      logo'.inner.map (fun i => i.transform) = some []) := by
  obtain ⟨el₀, h₀⟩ := Option.isSome_iff_exists.mp h₀
  refine ⟨?_, ?_, ?_, ?_⟩
  · rw [NexusLogo96ef.dispatch_attach_96ef]
    simp [NexusLogo96ef.onMouseleave, h₀, hin, setTransform, bind, Except.bind, pure,
      Except.pure, validTransform_identityRotation]
  · rw [NexusLogo96ef.dispatch_attach_96ef]
    simp [NexusLogo96ef.onBlur, h₀, hin, setTransform, bind, Except.bind, pure, Except.pure,
      validTransform_identityRotation]
  · rw [NexusLogo80ab.dispatch_attach_80ab]
    simp [NexusLogo80ab.onMouseleave, h₀, hin, setTransform, consoleLog, bind, Except.bind,
      pure, Except.pure, validTransform_nil]
  · rw [NexusLogo80ab.dispatch_attach_80ab]
    simp [NexusLogo80ab.onBlur, h₀, hin, setTransform, consoleLog, bind, Except.bind, pure,
      Except.pure, validTransform_nil]

/-- C2 amended, at a tilted logo. -/
theorem c2_leave_blur_resets_transform_witness :
    Examples.tiltedLogo.inner.isSome = true ∧
    Examples.tiltedLogo.inner = some Examples.tiltedInner ∧
    (∃ logo', dispatch (NexusLogo96ef.attach true Examples.tiltedLogo)
        ⟨.mouseleave, 35, 70, Examples.rect⟩ Examples.tiltedLogo = .ok logo' ∧
      logo'.inner.map (fun i => i.transform) = some identityRotation) ∧
    (∃ logo', dispatch (NexusLogo80ab.attach true Examples.tiltedLogo)
        ⟨.mouseleave, 35, 70, Examples.rect⟩ Examples.tiltedLogo = .ok logo' ∧
      logo'.inner.map (fun i => i.transform) = some []) :=
  have h := c2_leave_blur_resets_transform true Examples.tiltedLogo Examples.tiltedLogo
    Examples.tiltedInner 35 70 Examples.rect rfl rfl
  ⟨rfl, rfl, h.1, h.2.2.1⟩

/-- C8: in either script, with or without hover capability and with or without an inner
element, for every prior class list, `flipped` is in the class list after a mouseenter or
focus and not in it after a mouseleave or blur; and on a logo without inner element every
sequence of events is handled without an exception and leaves the logo without inner
element, so nothing is written to a transform.  Here `logo₀` is the logo as it was when the
listeners were attached; `classList`, `inner` and `console` are its state when the event
arrives. -/
theorem c8_flipped_class_toggles (hasHover : Bool) (logo₀ : Logo) (classList console : List String)
    (inner : Option Inner) (clientX clientY : Float) (rect : Rect) (events : List Event) :
    (∃ logo', dispatch (NexusLogo96ef.attach hasHover logo₀) ⟨.mouseenter, clientX, clientY, rect⟩
        ⟨classList, inner, console⟩ = .ok logo' ∧ "flipped" ∈ logo'.classList) ∧
    (∃ logo', dispatch (NexusLogo96ef.attach hasHover logo₀) ⟨.focus, clientX, clientY, rect⟩
        ⟨classList, inner, console⟩ = .ok logo' ∧ "flipped" ∈ logo'.classList) ∧
    (∃ logo', dispatch (NexusLogo96ef.attach hasHover logo₀) ⟨.mouseleave, clientX, clientY, rect⟩
        ⟨classList, inner, console⟩ = .ok logo' ∧ "flipped" ∉ logo'.classList) ∧
    (∃ logo', dispatch (NexusLogo96ef.attach hasHover logo₀) ⟨.blur, clientX, clientY, rect⟩
        ⟨classList, inner, console⟩ = .ok logo' ∧ "flipped" ∉ logo'.classList) ∧
    (∃ logo', dispatch (NexusLogo80ab.attach hasHover logo₀) ⟨.mouseenter, clientX, clientY, rect⟩
        ⟨classList, inner, console⟩ = .ok logo' ∧ "flipped" ∈ logo'.classList) ∧
    (∃ logo', dispatch (NexusLogo80ab.attach hasHover logo₀) ⟨.focus, clientX, clientY, rect⟩
        ⟨classList, inner, console⟩ = .ok logo' ∧ "flipped" ∈ logo'.classList) ∧
    (∃ logo', dispatch (NexusLogo80ab.attach hasHover logo₀) ⟨.mouseleave, clientX, clientY, rect⟩
        ⟨classList, inner, console⟩ = .ok logo' ∧ "flipped" ∉ logo'.classList) ∧
    (∃ logo', dispatch (NexusLogo80ab.attach hasHover logo₀) ⟨.blur, clientX, clientY, rect⟩
        ⟨classList, inner, console⟩ = .ok logo' ∧ "flipped" ∉ logo'.classList) ∧
    (∃ logo', run (NexusLogo96ef.attach hasHover ⟨classList, none, console⟩) events
        ⟨classList, none, console⟩ = .ok logo' ∧ logo'.inner = none) ∧
    (∃ logo', run (NexusLogo80ab.attach hasHover ⟨classList, none, console⟩) events
        ⟨classList, none, console⟩ = .ok logo' ∧ logo'.inner = none) := by
  have hnone : ∀ (reset : Transform) (moves : Bool),
      events.foldl (LogoSummary.innerAfter reset moves) none = none := by
    intro reset moves
    have h := LogoSummary.foldl_innerAfter_isSome reset moves events none
    cases hf : events.foldl (LogoSummary.innerAfter reset moves) none with
    | none => rfl
    | some el => rw [hf] at h; cases h
  refine ⟨?_, ?_, ?_, ?_, ?_, ?_, ?_, ?_, ?_, ?_⟩
  · rw [NexusLogo96ef.dispatch_attach_96ef]
    exact ⟨_, rfl, mem_classListAdd _ _⟩
  · rw [NexusLogo96ef.dispatch_attach_96ef]
    exact ⟨_, rfl, mem_classListAdd _ _⟩
  · rw [NexusLogo96ef.dispatch_attach_96ef]
    cases inner <;> cases logo₀.inner <;>
      simp [NexusLogo96ef.onMouseleave, setTransform, bind, Except.bind, pure, Except.pure,
        not_mem_classListRemove, validTransform_identityRotation]
  · rw [NexusLogo96ef.dispatch_attach_96ef]
    cases inner <;> cases logo₀.inner <;>
      simp [NexusLogo96ef.onBlur, setTransform, bind, Except.bind, pure, Except.pure,
        not_mem_classListRemove, validTransform_identityRotation]
  · rw [NexusLogo80ab.dispatch_attach_80ab]
    exact ⟨_, rfl, mem_classListAdd _ _⟩
  · rw [NexusLogo80ab.dispatch_attach_80ab]
    exact ⟨_, rfl, mem_classListAdd _ _⟩
  · rw [NexusLogo80ab.dispatch_attach_80ab]
    cases inner <;> cases logo₀.inner <;>
      simp [NexusLogo80ab.onMouseleave, setTransform, consoleLog, bind, Except.bind, pure,
        Except.pure, not_mem_classListRemove, validTransform_nil]
  · rw [NexusLogo80ab.dispatch_attach_80ab]
    cases inner <;> cases logo₀.inner <;>
      simp [NexusLogo80ab.onBlur, setTransform, consoleLog, bind, Except.bind, pure,
        Except.pure, not_mem_classListRemove, validTransform_nil]
  · rw [NexusLogo96ef.run_summary_96ef hasHover _ events _ rfl]
    exact ⟨_, rfl, hnone _ _⟩
  · obtain ⟨c, hc⟩ := NexusLogo80ab.run_summary_80ab hasHover ⟨classList, none, console⟩ events
      ⟨classList, none, console⟩ rfl
    rw [hc]
    exact ⟨_, rfl, hnone _ _⟩

/-- C9: without hover capability neither script attaches a mousemove listener: the
listeners are those of mouseenter, mouseleave, focus and blur; a mousemove event changes
nothing, whatever the state `current` of the logo; and after any sequence of events the
values ever written to the inner transform are the earlier ones followed by one reset value
per mouseleave or blur in the sequence. -/
theorem c9_no_hover_no_tilt (logo current : Logo) (events : List Event) (clientX clientY : Float)
    (rect : Rect) :
    (NexusLogo96ef.attach false logo).map Prod.fst =
        [.mouseenter, .mouseleave, .focus, .blur] ∧
    (NexusLogo80ab.attach false logo).map Prod.fst =
        [.mouseenter, .mouseleave, .focus, .blur] ∧
    dispatch (NexusLogo96ef.attach false logo) ⟨.mousemove, clientX, clientY, rect⟩ current =
        .ok current ∧
    dispatch (NexusLogo80ab.attach false logo) ⟨.mousemove, clientX, clientY, rect⟩ current =
        .ok current ∧
    (∃ logo', run (NexusLogo96ef.attach false logo) events logo = .ok logo' ∧
      logo'.inner.map (fun i => i.writes) =
        logo.inner.map (fun i => i.writes ++ List.replicate
          (events.countP (fun e => decide (e.type = .mouseleave ∨ e.type = .blur)))
          identityRotation)) ∧
    (∃ logo', run (NexusLogo80ab.attach false logo) events logo = .ok logo' ∧
      logo'.inner.map (fun i => i.writes) =
        logo.inner.map (fun i => i.writes ++ List.replicate
          (events.countP (fun e => decide (e.type = .mouseleave ∨ e.type = .blur))) [])) := by
  refine ⟨rfl, rfl, ?_, ?_, ?_, ?_⟩
  · rw [NexusLogo96ef.dispatch_attach_96ef]
    rfl
  · rw [NexusLogo80ab.dispatch_attach_80ab]
    rfl
  · rw [NexusLogo96ef.run_summary_96ef false logo events logo rfl]
    exact ⟨_, rfl, LogoSummary.foldl_innerAfter_writes _ _ _⟩
  · obtain ⟨c, hc⟩ := NexusLogo80ab.run_summary_80ab false logo events logo rfl
    rw [hc]
    exact ⟨_, rfl, LogoSummary.foldl_innerAfter_writes _ _ _⟩

/-- C10, refuted: without hover capability, after a mouseleave followed by a mousemove on a
logo with an inner element, the last event is a mousemove and the two scripts hold
different inner transforms: `rotateY(0deg) rotateX(0deg)` in 96ef, the empty string in
80ab. -/
theorem c10_counterexample :
    ∃ l96 l80,
      run (NexusLogo96ef.attach false Examples.tiltedLogo)
        [Examples.event .mouseleave, Examples.event .mousemove] Examples.tiltedLogo = .ok l96 ∧
      run (NexusLogo80ab.attach false Examples.tiltedLogo)
        [Examples.event .mouseleave, Examples.event .mousemove] Examples.tiltedLogo = .ok l80 ∧
      l96.inner.map (fun i => i.transform) = some identityRotation ∧
      l80.inner.map (fun i => i.transform) = some [] ∧
      l96.inner.map (fun i => i.transform) ≠ l80.inner.map (fun i => i.transform) := by
  obtain ⟨c, hc⟩ := NexusLogo80ab.run_summary_80ab false Examples.tiltedLogo
    [Examples.event .mouseleave, Examples.event .mousemove] Examples.tiltedLogo rfl
  rw [NexusLogo96ef.run_summary_96ef false Examples.tiltedLogo _ Examples.tiltedLogo rfl, hc]
  refine ⟨_, _, rfl, rfl, ?_, ?_, ?_⟩ <;>
    simp [LogoSummary.innerAfter, LogoSummary.assign, Examples.event, Examples.tiltedLogo,
      identityRotation]

/-- C10, amended: for every hover capability, inner-element presence and sequence of events
from a common initial logo, the two scripts attach listeners for the same event types and
both handle the sequence without exception; they end with the same class list and agree on
the presence of the inner element; the 96ef script logs nothing; their inner transforms are
equal, or else 96ef holds `rotateY(0deg) rotateX(0deg)`, 80ab holds the empty string, and
the sequence contains a mouseleave or blur after which no mousemove has set the transform
(none occurred, the device has no hover capability, or the angles computed were not
finite, which the style object ignores).  On a hover-capable device the inner transforms
are equal after every mousemove whose two angles are finite.  Initialisation registers
listeners of the same types on every logo of the page in both scripts, and logs nothing in
96ef. -/
theorem c10_variants_agree_up_to_reset (hasHover : Bool) (logo : Logo) (events : List Event)
    (clientX clientY : Float) (rect : Rect) (logoElements : List Logo) :
    (NexusLogo96ef.init hasHover logoElements).1.map (fun ls => ls.map Prod.fst) =
      (NexusLogo80ab.init hasHover logoElements).1.map (fun ls => ls.map Prod.fst) ∧
    (NexusLogo96ef.init hasHover logoElements).2 = [] ∧
    (NexusLogo96ef.attach hasHover logo).map Prod.fst =
      (NexusLogo80ab.attach hasHover logo).map Prod.fst ∧
    (∃ l96 l80,
      run (NexusLogo96ef.attach hasHover logo) events logo = .ok l96 ∧
      run (NexusLogo80ab.attach hasHover logo) events logo = .ok l80 ∧
      l96.classList = l80.classList ∧
      l96.inner.isSome = l80.inner.isSome ∧
      l96.console = logo.console ∧
      (l96.inner.map (fun i => i.transform) = l80.inner.map (fun i => i.transform) ∨
        (l96.inner.map (fun i => i.transform) = some identityRotation ∧
          l80.inner.map (fun i => i.transform) = some [] ∧
          ∃ pre r post, events = pre ++ r :: post ∧
            (r.type = .mouseleave ∨ r.type = .blur) ∧
            post.all (fun e => !(hasHover && decide (e.type = .mousemove) &&
              validTransform (tiltTransform
                (NexusLogo96ef.tiltAngles e.rect e.clientX e.clientY).1
                (NexusLogo96ef.tiltAngles e.rect e.clientX e.clientY).2))) = true))) ∧
    (∃ l96 l80,
      run (NexusLogo96ef.attach true logo)
        (events ++ [⟨.mousemove, clientX, clientY, rect⟩]) logo = .ok l96 ∧
      run (NexusLogo80ab.attach true logo)
        (events ++ [⟨.mousemove, clientX, clientY, rect⟩]) logo = .ok l80 ∧
      (validTransform (tiltTransform (NexusLogo96ef.tiltAngles rect clientX clientY).1
          (NexusLogo96ef.tiltAngles rect clientX clientY).2) = false ∨
        l96.inner.map (fun i => i.transform) = l80.inner.map (fun i => i.transform))) := by
  refine ⟨?_, rfl, ?_, ?_, ?_⟩
  · simp only [NexusLogo96ef.init, NexusLogo80ab.init, List.map_map]
    refine List.map_congr_left ?_
    intro l _
    simp only [Function.comp_apply, NexusLogo96ef.attach_types_96ef,
      NexusLogo80ab.attach_types_80ab]
  · rw [NexusLogo96ef.attach_types_96ef, NexusLogo80ab.attach_types_80ab]
  · obtain ⟨c, hc⟩ := NexusLogo80ab.run_summary_80ab hasHover logo events logo rfl
    rw [NexusLogo96ef.run_summary_96ef hasHover logo events logo rfl, hc]
    refine ⟨_, _, rfl, rfl, rfl, ?_, rfl, ?_⟩
    · simp only [LogoSummary.foldl_innerAfter_isSome]
    · cases hi : logo.inner with
      | none =>
        left
        have h1 := LogoSummary.foldl_innerAfter_isSome identityRotation
          (hasHover && (none : Option Inner).isSome) events none
        have h2 := LogoSummary.foldl_innerAfter_isSome []
          (hasHover && (none : Option Inner).isSome) events none
        simp only
        cases ha : events.foldl (LogoSummary.innerAfter identityRotation
            (hasHover && (none : Option Inner).isSome)) none with
        | some x => rw [ha] at h1; cases h1
        | none =>
          cases hb : events.foldl (LogoSummary.innerAfter []
              (hasHover && (none : Option Inner).isSome)) none with
          | some y => rw [hb] at h2; cases h2
          | none => rfl
      | some el =>
        have h := LogoSummary.foldl_innerAfter_compare hasHover events (some el)
        simpa [LogoSummary.tilt] using h
  · obtain ⟨c, hc⟩ := NexusLogo80ab.run_summary_80ab true logo
      (events ++ [⟨.mousemove, clientX, clientY, rect⟩]) logo rfl
    rw [NexusLogo96ef.run_summary_96ef true logo _ logo rfl, hc]
    refine ⟨_, _, rfl, rfl, ?_⟩
    simp only [List.foldl_append, List.foldl_cons, List.foldl_nil, Bool.true_and]
    have ha := LogoSummary.foldl_innerAfter_isSome identityRotation logo.inner.isSome events
      logo.inner
    have hb := LogoSummary.foldl_innerAfter_isSome [] logo.inner.isSome events logo.inner
    generalize events.foldl (LogoSummary.innerAfter identityRotation logo.inner.isSome)
      logo.inner = a at ha ⊢
    generalize events.foldl (LogoSummary.innerAfter [] logo.inner.isSome) logo.inner = b at hb ⊢
    unfold LogoSummary.innerAfter
    simp only [LogoSummary.tilt]
    cases hv : validTransform (tiltTransform (NexusLogo96ef.tiltAngles rect clientX clientY).1
        (NexusLogo96ef.tiltAngles rect clientX clientY).2)
    · exact Or.inl rfl
    · right
      cases hi : logo.inner.isSome
      · rw [hi] at ha hb
        cases a with
        | some x => cases ha
        | none => cases b with
          | some y => cases hb
          | none => rfl
      · simp only [Bool.and_self, if_true]
        exact LogoSummary.map_transform_eq_of_isSome_eq _ a b (ha.trans hb.symm)

/-! ## The claims: chat panel resize toggle -/

section ChatClaims

open ChatbotFix

/-- C3: on a page with both elements, initialisation leaves `isExpanded = false`; after any
sequence of clicks on the toggle button (with timers firing in between or not) the state is
expanded exactly when the number of clicks is odd, and one more click flips `isExpanded`,
so that no two consecutive states are identical. -/
theorem c3_click_alternates_state (s : Page) (c : Container) (b : Button)
    (hc : s.chatMessages = some c) (hb : s.toggleSizeBtn = some b) (l : List Step) :
    ∃ s₀ s₁ s₂,
      init s = .ok s₀ ∧ s₀.isExpanded = false ∧
      session l s = .ok s₁ ∧
      (s₁.isExpanded = true ↔ l.count .click % 2 = 1) ∧
      click s₁ = .ok s₂ ∧ session (l ++ [.click]) s = .ok s₂ ∧
      s₂.isExpanded = (!s₁.isExpanded) ∧ s₂.isExpanded ≠ s₁.isExpanded := by
  have hinit := ChatSummary.ready_afterInit s c b hc hb
  have hready := ChatSummary.ready_foldl l _ hinit
  have h₀ : (ChatSummary.afterInit s).isExpanded = false := by
    simp [ChatSummary.isExpanded_eq, ChatSummary.listeners, ChatSummary.afterInit, hb]
  have h₂ := ChatSummary.afterStep_isExpanded _ .click hready
  simp only [ChatSummary.afterStep, if_true] at h₂
  refine ⟨_, _, _, ChatSummary.init_eq s c b hc hb, h₀, ChatSummary.session_eq l s c b hc hb,
    ?_, ChatSummary.click_eq _ hready, ?_, h₂, ?_⟩
  · rw [ChatSummary.foldl_isExpanded l _ hinit, h₀]
    by_cases h : l.count .click % 2 = 1 <;> simp [h]
  · rw [ChatSummary.session_eq (l ++ [Step.click]) s c b hc hb, List.foldl_append]
    rfl
  · rw [h₂]
    simp

/-- C3, on the example page after three clicks. -/
theorem c3_click_alternates_state_witness :
    Examples.chatPage.chatMessages = some Examples.container ∧
    Examples.chatPage.toggleSizeBtn = some Examples.button ∧
    ∃ s₀ s₁ s₂,
      init Examples.chatPage = .ok s₀ ∧ s₀.isExpanded = false ∧
      session [.click, .click, .click] Examples.chatPage = .ok s₁ ∧
      (s₁.isExpanded = true ↔ [Step.click, .click, .click].count .click % 2 = 1) ∧
      click s₁ = .ok s₂ ∧ session ([.click, .click, .click] ++ [.click]) Examples.chatPage = .ok s₂ ∧
      s₂.isExpanded = (!s₁.isExpanded) ∧ s₂.isExpanded ≠ s₁.isExpanded :=
  ⟨rfl, rfl, c3_click_alternates_state Examples.chatPage Examples.container Examples.button
    rfl rfl [.click, .click, .click]⟩

/-- C4: on a page with both elements, after initialisation and any sequence of steps with
at least one click, the inline style of the message container is the one of the current
state: height 800px (`expandedHeight`) with the `bi-arrows-angle-contract` icon and the
title "Collapse" when expanded, height 200px (`collapsedHeight`) with the
`bi-arrows-angle-expand` icon and the title "Expand" when collapsed; it is never the
400px of `defaultHeight`. -/
theorem c4_height_matches_state (s : Page) (c : Container) (b : Button)
    (hc : s.chatMessages = some c) (hb : s.toggleSizeBtn = some b) (l : List Step)
    (hn : 0 < l.count .click) :
    ∃ s' c' b',
      session l s = .ok s' ∧ s'.chatMessages = some c' ∧ s'.toggleSizeBtn = some b' ∧
      ((s'.isExpanded = true ∧ c'.cssText = heightCssText expandedHeight ∧
          { property := "height", value := .px 800, important := true } ∈ c'.cssText ∧
          b'.innerHTML = "<i class=\"bi bi-arrows-angle-contract\"></i>" ∧
          b'.title = "Collapse") ∨
        (s'.isExpanded = false ∧ c'.cssText = heightCssText collapsedHeight ∧
          { property := "height", value := .px 200, important := true } ∈ c'.cssText ∧
          b'.innerHTML = "<i class=\"bi bi-arrows-angle-expand\"></i>" ∧
          b'.title = "Expand")) ∧
      c'.cssText ≠ heightCssText defaultHeight ∧
      { property := "height", value := .px 400, important := true } ∉ c'.cssText := by
  obtain ⟨c', b', hc', hb', hd⟩ := ChatSummary.settled_foldl l _
    (ChatSummary.ready_afterInit s c b hc hb) hn
  refine ⟨_, c', b', ChatSummary.session_eq l s c b hc hb, hc', hb', ?_, ?_, ?_⟩
  · rcases hd with ⟨h1, h2, h3, h4⟩ | ⟨h1, h2, h3, h4⟩
    · exact Or.inl ⟨h1, h2, by rw [h2]; simp [heightCssText], h3, h4⟩
    · exact Or.inr ⟨h1, h2, by rw [h2]; simp [heightCssText], h3, h4⟩
  · rcases hd with ⟨_, h2, _, _⟩ | ⟨_, h2, _, _⟩ <;>
      simp [h2, heightCssText, defaultHeight]
  · rcases hd with ⟨_, h2, _, _⟩ | ⟨_, h2, _, _⟩ <;>
      simp [h2, heightCssText]

/-- C4, on the example page after two clicks. -/
theorem c4_height_matches_state_witness :
    Examples.chatPage.chatMessages = some Examples.container ∧
    Examples.chatPage.toggleSizeBtn = some Examples.button ∧
    0 < [Step.click, .click].count .click ∧
    ∃ s' c' b',
      session [.click, .click] Examples.chatPage = .ok s' ∧ s'.chatMessages = some c' ∧
      s'.toggleSizeBtn = some b' ∧
      ((s'.isExpanded = true ∧ c'.cssText = heightCssText expandedHeight ∧
          { property := "height", value := .px 800, important := true } ∈ c'.cssText ∧
          b'.innerHTML = "<i class=\"bi bi-arrows-angle-contract\"></i>" ∧
          b'.title = "Collapse") ∨
        (s'.isExpanded = false ∧ c'.cssText = heightCssText collapsedHeight ∧
          { property := "height", value := .px 200, important := true } ∈ c'.cssText ∧
          b'.innerHTML = "<i class=\"bi bi-arrows-angle-expand\"></i>" ∧
          b'.title = "Expand")) ∧
      c'.cssText ≠ heightCssText defaultHeight ∧
      { property := "height", value := .px 400, important := true } ∉ c'.cssText :=
  ⟨rfl, rfl, by decide, c4_height_matches_state Examples.chatPage Examples.container
    Examples.button rfl rfl [.click, .click] (by decide)⟩

/-- C5, at the failing input: on the example page the script runs twice.  The second run
removes no listener, so the button carries two; one click then runs both handlers and sets
two timers of 300 ms where the claim says exactly one.  After a single run one click sets
one timer. -/
theorem c5_second_run_sets_two_timers :
    ∃ s₁ s₁' s₂ s₃,
      init Examples.chatPage = .ok s₁ ∧
      click s₁ = .ok s₁' ∧
      s₁'.timers = [{ delay := 300, callback := .scrollToBottom }] ∧
      init s₁ = .ok s₂ ∧ s₂.timers = [] ∧
      s₂.toggleSizeBtn.map (fun b => b.clickListeners.length) = some 2 ∧
      click s₂ = .ok s₃ ∧
      s₃.timers = [{ delay := 300, callback := .scrollToBottom },
        { delay := 300, callback := .scrollToBottom }] := by
  have h₁ := ChatSummary.init_eq Examples.chatPage Examples.container Examples.button rfl rfl
  have r₁ := ChatSummary.ready_afterInit Examples.chatPage Examples.container Examples.button
    rfl rfl
  have h₂ := ChatSummary.init_eq (ChatSummary.afterInit Examples.chatPage) Examples.container
    _ rfl rfl
  have r₂ := ChatSummary.ready_afterInit (ChatSummary.afterInit Examples.chatPage)
    Examples.container _ rfl rfl
  exact ⟨_, _, _, _, h₁, ChatSummary.click_eq _ r₁, rfl, h₂, rfl, rfl,
    ChatSummary.click_eq _ r₂, rfl⟩

/-- C6: when the document lacks `#chatMessages` or `#toggleChatSizeBtn`, initialisation
returns without an exception and changes nothing but the console, to which it adds one
line: no listener is attached, no timer is set and no element is modified. -/
theorem c6_missing_element_is_noop (s : Page)
    (h : s.chatMessages = none ∨ s.toggleSizeBtn = none) :
    init s = .ok { s with
      console := s.console ++ ["Chatbot elements not found, skipping resize fix"] } := by
  rcases h with h | h <;>
    simp [init, h, ChatbotFix.consoleLog, pure, Except.pure]

/-- C6, on a page without the toggle button. -/
theorem c6_missing_element_is_noop_witness :
    (Examples.pageWithoutButton.chatMessages = none ∨
      Examples.pageWithoutButton.toggleSizeBtn = none) ∧
    init Examples.pageWithoutButton = .ok { Examples.pageWithoutButton with
      console := Examples.pageWithoutButton.console ++
        ["Chatbot elements not found, skipping resize fix"] } :=
  ⟨Or.inr rfl, c6_missing_element_is_noop Examples.pageWithoutButton (Or.inr rfl)⟩

end ChatClaims
